import Mathlib

/-!
Verification development for the AdCarbon_FHE front end
(`src/frontend/web/src/App.tsx`).

The front end manages a campaign ledger stored in an external key/value
blob store reached through a contract object: the index of record ids is
the blob at the fixed key `"campaign_keys"`, and each record is the blob
at `"campaign_" ++ id`.  The definitions below are a shallow embedding of
the ledger operations `loadCampaigns`, `submitCampaign`, and
`calculateCarbon`, and of the pure view derivations (statistics, search,
pagination, chart).  JavaScript numbers are modelled as exact rationals
(`ℚ`); the nondeterministic inputs `Date.now()` and `Math.random()` are
passed as explicit parameters; a rejected `await` is modelled by the
`Fetch.fail` outcome of a read; blobs are modelled at the schema level
(a blob is empty, fails to parse, or parses into the record shape the
code reads from it).
-/

namespace AdCarbon

/-- Campaign lifecycle status (`"processing" | "completed" | "error"` in
`CampaignData` of App.tsx). -/
inductive Status where
  | processing
  | completed
  | error

deriving DecidableEq, Repr

/-- The `details` object stored inside a campaign record
(`{servers, bandwidth, impressions, duration}` in App.tsx). -/
structure Details where
  servers : ℚ
  bandwidth : ℚ
  impressions : ℚ
  duration : ℚ

deriving DecidableEq, Repr

/-- The JSON object stored in a record blob, with the fields the code
reads from it (`name`, `data`, `timestamp`, `owner`, `carbonFootprint`,
`status`, `details`); the last three may be absent from the payload
(`Option`), matching the `|| 0`, `|| "processing"` and optional-`details`
reads in `loadCampaigns`/`calculateCarbon`. -/
structure CampaignJson where
  name : String
  data : String
  timestamp : ℚ
  owner : String
  carbonFootprint : Option ℚ
  status : Option Status
  details : Option Details

deriving DecidableEq, Repr

/-- Result of one `await contract.…` read: `ok a`, or `fail` for a
rejected promise (transport failure thrown into the caller). -/
inductive Fetch (α : Type) where
  | ok (a : α)
  | fail

deriving DecidableEq, Repr

/-- Parse outcome of the index blob stored at `"campaign_keys"`:
`empty` (zero-length bytes), `malformed` (`JSON.parse` throws), or a
parsed list of ids. -/
inductive IndexBlob where
  | empty
  | malformed
  | json (keys : List String)

deriving DecidableEq, Repr

/-- Parse outcome of a record blob stored at `"campaign_" ++ id`. -/
inductive RecordBlob where
  | empty
  | malformed
  | json (j : CampaignJson)

deriving DecidableEq, Repr

/-- The external key/value store together with the contract-acquisition
and availability probes the code performs.  `keysBlob` is the value at
the fixed key `"campaign_keys"`; `records` maps full record keys
(`"campaign_" ++ id`) to their blobs.  `readContract`, `available` and
`signerContract` model `getContractReadOnly()`/`contract.isAvailable()`/
`getContractWithSigner()`: `fail` is a thrown error, `ok false` a
null/false result, `ok true` success. -/
structure Store where
  keysBlob : Fetch IndexBlob
  records : List (String × Fetch RecordBlob)
  readContract : Fetch Bool
  available : Fetch Bool
  signerContract : Fetch Bool

deriving DecidableEq, Repr

/-- `contract.getData(key)` for a record key: the store returns empty
bytes for an absent key (it never throws for "not found"). -/
def Store.getData (s : Store) (key : String) : Fetch RecordBlob :=
  match s.records.lookup key with
  | some r => r
  | none => Fetch.ok RecordBlob.empty

/-- A `contract.setData` call issued by an operation: either a record
blob write or a write of the key index. -/
inductive Write where
  | record (key : String) (blob : RecordBlob)
  | keyIndex (keys : List String)

deriving DecidableEq, Repr

/-- Apply one write to the store. -/
def applyWrite (s : Store) : Write → Store
  | Write.record key b => { s with records := (key, Fetch.ok b) :: s.records }
  | Write.keyIndex ks => { s with keysBlob := Fetch.ok (IndexBlob.json ks) }

/-- Apply a trace of writes in order. -/
def applyWrites (s : Store) (ws : List Write) : Store :=
  ws.foldl applyWrite s

/-- The ids enumerated by an index blob: an absent or unparsable index
blob is treated as the empty index (`keys` stays `[]` in
`loadCampaigns`/`submitCampaign`). -/
def indexKeys : IndexBlob → List String
  | IndexBlob.empty => []
  | IndexBlob.malformed => []
  | IndexBlob.json ks => ks

/-- Decode a parsed record blob into the in-memory `CampaignData` entity,
as the `list.push({...})` in `loadCampaigns` does: `carbonFootprint`
defaults to `0` and `status` to `"processing"` when absent. -/
structure CampaignData where
  id : String
  name : String
  encryptedData : String
  timestamp : ℚ
  owner : String
  carbonFootprint : ℚ
  status : Status
  details : Option Details

deriving DecidableEq, Repr

/-- The record constructed from a parsed blob at `loadCampaigns`
lines 118–127. -/
def decodeCampaign (key : String) (j : CampaignJson) : CampaignData :=
  { id := key
    name := j.name
    encryptedData := j.data
    timestamp := j.timestamp
    owner := j.owner
    carbonFootprint := j.carbonFootprint.getD 0
    status := j.status.getD Status.processing
    details := j.details }

/-- One iteration of the record loop in `loadCampaigns` (lines 112–135):
a thrown read (`Fetch.fail`), empty bytes, or a parse failure all skip
the id (the inner `try`/`catch` logs and continues); a parsed blob is
decoded and kept. -/
def readRecord (s : Store) (key : String) : Option CampaignData :=
  match s.getData ("campaign_" ++ key) with
  | Fetch.fail => none
  | Fetch.ok RecordBlob.empty => none
  | Fetch.ok RecordBlob.malformed => none
  | Fetch.ok (RecordBlob.json j) => some (decodeCampaign key j)

/-- Insert a record into a list sorted by `timestamp` descending,
placing it before the first element whose timestamp is not greater.
`sortCampaigns` below uses it to realise
`list.sort((a, b) => b.timestamp - a.timestamp)`. -/
def insertByTs (c : CampaignData) : List CampaignData → List CampaignData
  | [] => [c]
  | x :: xs => if c.timestamp < x.timestamp then x :: insertByTs c xs else c :: x :: xs

/-- `list.sort((a, b) => b.timestamp - a.timestamp)` (line 137):
`Array.prototype.sort` is stable per ECMA-262, and a stable sort under a
consistent comparator has a unique result, realised here by a stable
insertion sort: descending by `timestamp`, ties kept in input order. -/
def sortCampaigns : List CampaignData → List CampaignData
  | [] => []
  | x :: xs => insertByTs x (sortCampaigns xs)

/-- The list assembled from an index blob before sorting: each id of the
index in order, decoded when its blob is present and parses. -/
def assembledList (s : Store) (kb : IndexBlob) : List CampaignData :=
  (indexKeys kb).filterMap (readRecord s)

/-- The body of the `try` block of `loadCampaigns` (lines 88–138):
`Fetch.fail` is an exception escaping to the outer `catch`; `ok none`
is an early `return` (null contract / unavailable) that leaves the
campaign list unset; `ok (some l)` sets the campaign list to `l`. -/
def loadCampaignsBody (s : Store) : Fetch (Option (List CampaignData)) :=
  match s.readContract with
  | Fetch.fail => Fetch.fail
  | Fetch.ok false => Fetch.ok none
  | Fetch.ok true =>
    match s.available with
    | Fetch.fail => Fetch.fail
    | Fetch.ok false => Fetch.ok none
    | Fetch.ok true =>
      match s.keysBlob with
      | Fetch.fail => Fetch.fail
      | Fetch.ok kb => Fetch.ok (some (sortCampaigns (assembledList s kb)))

/-- `loadCampaigns` as its caller observes it: the outer `catch` (line
139) swallows every exception and logs it, so the async function always
resolves; the `Except` layer is the (never used) rejection channel of
the returned promise.  The second component is the trace of `setData`
calls issued — `loadCampaigns` performs none. -/
def loadCampaigns (s : Store) : Except String (Option (List CampaignData)) × List Write :=
  match loadCampaignsBody s with
  | Fetch.fail => (Except.ok none, [])
  | Fetch.ok r => (Except.ok r, [])

/-- The distinct failure paths of `calculateCarbon` (lines 248–317), all
caught by its `catch` and shown as an error status: signer contract
missing, a thrown read, empty bytes (`"Campaign not found"`), a JSON
parse failure, or `campaignData.details` absent (the `.servers` access
throws). -/
inductive CalcError where
  | noSigner
  | transport
  | notFound
  | parseFail
  | missingDetails

deriving DecidableEq, Repr

/-- The fixed linear carbon model of lines 277–282. -/
def carbonFormula (d : Details) : ℚ :=
  d.servers * 0.5 + d.bandwidth * 0.02 + d.impressions * 0.001 + d.duration * 0.1

/-- `Math.round`: round half toward positive infinity. -/
def jsRound (q : ℚ) : ℤ := ⌊q + 1 / 2⌋

/-- `calculateCarbon(campaignId)` (lines 248–317), after the provider
check: read the record blob, parse it, evaluate the formula on
`details`, and write back the record with `status = "completed"` and the
rounded footprint.  Returns the outcome and the trace of `setData`
calls. -/
def calculateCarbon (s : Store) (campaignId : String) :
    Except CalcError CampaignJson × List Write :=
  match s.signerContract with
  | Fetch.fail => (Except.error CalcError.noSigner, [])
  | Fetch.ok false => (Except.error CalcError.noSigner, [])
  | Fetch.ok true =>
    match s.getData ("campaign_" ++ campaignId) with
    | Fetch.fail => (Except.error CalcError.transport, [])
    | Fetch.ok RecordBlob.empty => (Except.error CalcError.notFound, [])
    | Fetch.ok RecordBlob.malformed => (Except.error CalcError.parseFail, [])
    | Fetch.ok (RecordBlob.json j) =>
      match j.details with
      | none => (Except.error CalcError.missingDetails, [])
      | some d =>
        let updated : CampaignJson :=
          { j with
              carbonFootprint := some ((jsRound (carbonFormula d) : ℤ) : ℚ)
              status := some Status.completed }
        (Except.ok updated,
         [Write.record ("campaign_" ++ campaignId) (RecordBlob.json updated)])

/-- The form state behind the create modal
(`newCampaignData` in App.tsx). -/
structure NewCampaignData where
  name : String
  servers : ℚ
  bandwidth : ℚ
  impressions : ℚ
  duration : ℚ

deriving DecidableEq, Repr

/-- `submitCampaign()` (lines 147–246), after the provider check.
`nowMs` stands for `Date.now()`, `randSuffix` for
`Math.random().toString(36).substring(2, 9)`, `payload` for
`btoa(JSON.stringify(newCampaignData))`, `account` for the connected
account.  The id is the millisecond timestamp concatenated with `"-"`
and the random suffix; the record is written first, then the index is
read, the id appended, and the index written back. -/
def submitCampaign (s : Store) (nowMs : ℕ) (randSuffix : String)
    (account : String) (payload : String) (d : NewCampaignData) :
    Except CalcError (String × CampaignJson) × List Write :=
  match s.signerContract with
  | Fetch.fail => (Except.error CalcError.noSigner, [])
  | Fetch.ok false => (Except.error CalcError.noSigner, [])
  | Fetch.ok true =>
    let campaignId := toString nowMs ++ "-" ++ randSuffix
    let campaignData : CampaignJson :=
      { name := d.name
        data := "FHE-" ++ payload
        timestamp := ((nowMs / 1000 : ℕ) : ℚ)
        owner := account
        carbonFootprint := some 0
        status := some Status.processing
        details := some ⟨d.servers, d.bandwidth, d.impressions, d.duration⟩ }
    let w1 := Write.record ("campaign_" ++ campaignId) (RecordBlob.json campaignData)
    match s.keysBlob with
    | Fetch.fail => (Except.error CalcError.transport, [w1])
    | Fetch.ok kb =>
      (Except.ok (campaignId, campaignData),
       [w1, Write.keyIndex (indexKeys kb ++ [campaignId])])

/-- `completedCount` (line 53): number of completed campaigns. -/
def completedCount (campaigns : List CampaignData) : ℕ :=
  (campaigns.filter (fun c => c.status = Status.completed)).length

/-- `processingCount` (line 54): number of processing campaigns. -/
def processingCount (campaigns : List CampaignData) : ℕ :=
  (campaigns.filter (fun c => c.status = Status.processing)).length

/-- `totalCarbon` (line 55): `campaigns.reduce((sum, c) => sum + (c.carbonFootprint || 0), 0)`;
on the rationals of this model `c.carbonFootprint || 0` is `c.carbonFootprint`
(the `|| 0` maps `0` to `0` and guards only the NaN/undefined cases that the
decoded record cannot contain). -/
def totalCarbon (campaigns : List CampaignData) : ℚ :=
  campaigns.foldl (fun sum c => sum + c.carbonFootprint) 0

/-- `avgCarbon` (line 56): `campaigns.length > 0 ? totalCarbon / campaigns.length : 0`. -/
def avgCarbon (campaigns : List CampaignData) : ℚ :=
  if 0 < campaigns.length then totalCarbon campaigns / (campaigns.length : ℚ) else 0

/-- `isOwner` (lines 348–350): case-insensitive account comparison. -/
def isOwner (account address : String) : Bool :=
  account.toLower == address.toLower

/-- `itemsPerPage` (line 50): fixed page size. -/
def itemsPerPage : ℕ := 5

/-- Clamp a JavaScript `Array.prototype.slice` index into `[0, len]`:
a negative index counts from the end (`max(len + i, 0)`), a non-negative
one is capped at `len`. -/
def jsSliceBound (len : ℕ) (i : ℤ) : ℕ :=
  if i < 0 then ((len : ℤ) + i).toNat else min i.toNat len

/-- `Array.prototype.slice(start, stop)`. -/
def jsSlice {α : Type} (l : List α) (start stop : ℤ) : List α :=
  (l.take (jsSliceBound l.length stop)).drop (jsSliceBound l.length start)

/-- `currentItems` (lines 382–384):
`filteredCampaigns.slice(currentPage*itemsPerPage - itemsPerPage, currentPage*itemsPerPage)`. -/
def currentItems (filtered : List CampaignData) (currentPage : ℤ) : List CampaignData :=
  jsSlice filtered (currentPage * (itemsPerPage : ℤ) - (itemsPerPage : ℤ))
    (currentPage * (itemsPerPage : ℤ))

/-- `totalPages` (line 385): `Math.ceil(filteredCampaigns.length / itemsPerPage)`
as the ceiling division on naturals. -/
def totalPages (filtered : List CampaignData) : ℕ :=
  (filtered.length + itemsPerPage - 1) / itemsPerPage

/-- `paginate` (line 387): `setCurrentPage(pageNumber)` — the requested page
is stored exactly as given, with no clamping. -/
def paginate (pageNumber : ℤ) : ℤ := pageNumber

/-- One bar of the carbon chart (lines 413–423): the label is
`campaign.name.substring(0, 10)`, the width percentage is
`(campaign.carbonFootprint / maxCarbon) * 100`. -/
structure ChartBar where
  id : String
  label : String
  widthPct : ℚ
  value : ℚ

deriving DecidableEq, Repr

/-- The three shapes `renderCarbonChart` can render. -/
inductive ChartView where
  | noData
  | noCompleted
  | chart (bars : List ChartBar)

deriving DecidableEq, Repr

/-- `renderCarbonChart` (lines 389–427): empty state for an empty list,
empty state when no record is completed; otherwise `maxCarbon` is
`Math.max(...completedCampaigns.map(c => c.carbonFootprint))` over ALL
completed records and the bars are `completedCampaigns.slice(0, 5)`.
(The JavaScript division `0 / 0` would be NaN; in this rational model it
is `0` — no claim depends on that corner.) -/
def renderCarbonChart (campaigns : List CampaignData) : ChartView :=
  if campaigns.isEmpty then ChartView.noData
  else
    match campaigns.filter (fun c => c.status = Status.completed) with
    | [] => ChartView.noCompleted
    | c :: cs =>
      let maxCarbon := (cs.map (fun x => x.carbonFootprint)).foldl max c.carbonFootprint
      ChartView.chart (((c :: cs).take 5).map (fun x =>
        { id := x.id, label := x.name.take 10,
          widthPct := x.carbonFootprint / maxCarbon * 100,
          value := x.carbonFootprint }))

/-- Modelled from the spec: the chart derivation exactly as `renderCarbonChart`
above, except that the bar width is normalized against the maximum footprint
among the DISPLAYED set (the at most 5 records shown), as the specification
states, instead of the maximum over all completed records. -/
def renderCarbonChartSpecNorm (campaigns : List CampaignData) : ChartView :=
  if campaigns.isEmpty then ChartView.noData
  else
    match campaigns.filter (fun c => c.status = Status.completed) with
    | [] => ChartView.noCompleted
    | c :: cs =>
      let maxCarbon := ((cs.take 4).map (fun x => x.carbonFootprint)).foldl max c.carbonFootprint
      ChartView.chart (((c :: cs).take 5).map (fun x =>
        { id := x.id, label := x.name.take 10,
          widthPct := x.carbonFootprint / maxCarbon * 100,
          value := x.carbonFootprint }))

/-- The render condition of the Calculate button (line 620):
`isOwner(campaign.owner) && campaign.status === "processing"`. -/
def calcButtonVisible (account : String) (c : CampaignData) : Bool :=
  isOwner account c.owner && c.status == Status.processing

/-- A processing record with the metrics of the spec scenario. -/
def procJson : CampaignJson :=
  { name := "Camp1", data := "FHE-x", timestamp := 100, owner := "0xOwner",
    carbonFootprint := some 0, status := some Status.processing,
    details := some ⟨2, 10, 1000, 5⟩ }

/-- A record already completed, owned by `"0xOwner"`. -/
def doneJson : CampaignJson :=
  { name := "Camp1", data := "FHE-x", timestamp := 100, owner := "0xOwner",
    carbonFootprint := some 3, status := some Status.completed,
    details := some ⟨2, 10, 1000, 5⟩ }

/-- A healthy store holding the processing record under id `"a"`. -/
def procStore : Store :=
  { keysBlob := Fetch.ok (IndexBlob.json ["a"]),
    records := [("campaign_a", Fetch.ok (RecordBlob.json procJson))],
    readContract := Fetch.ok true, available := Fetch.ok true,
    signerContract := Fetch.ok true }

/-- A healthy store holding the completed record under id `"a"`. -/
def doneStore : Store :=
  { keysBlob := Fetch.ok (IndexBlob.json ["a"]),
    records := [("campaign_a", Fetch.ok (RecordBlob.json doneJson))],
    readContract := Fetch.ok true, available := Fetch.ok true,
    signerContract := Fetch.ok true }

/-- A healthy store with no record blobs at all. -/
def bareStore : Store :=
  { keysBlob := Fetch.ok IndexBlob.empty, records := [],
    readContract := Fetch.ok true, available := Fetch.ok true,
    signerContract := Fetch.ok true }

/-- The in-memory record decoded from `procJson` under id `"a"`. -/
def procCampaign : CampaignData := decodeCampaign "a" procJson

/-- store for the C3 witness -/
def mixedStore : Store :=
  { keysBlob := Fetch.ok (IndexBlob.json ["a", "b", "c"]),
    records := [("campaign_a", Fetch.ok (RecordBlob.json procJson)),
                ("campaign_b", Fetch.ok RecordBlob.malformed)],
    readContract := Fetch.ok true, available := Fetch.ok true,
    signerContract := Fetch.ok true }

/-- store with the transport down at the index read -/
def downStore : Store :=
  { keysBlob := Fetch.fail, records := [],
    readContract := Fetch.ok true, available := Fetch.ok true,
    signerContract := Fetch.ok true }

/-- records for the C5 witness: equal timestamps for "a" and "c" -/
def jsonA : CampaignJson :=
  { name := "A", data := "d", timestamp := 100, owner := "o",
    carbonFootprint := some 1, status := some Status.completed, details := none }

def jsonB : CampaignJson :=
  { name := "B", data := "d", timestamp := 200, owner := "o",
    carbonFootprint := some 2, status := some Status.completed, details := none }

def jsonC : CampaignJson :=
  { name := "C", data := "d", timestamp := 100, owner := "o",
    carbonFootprint := some 4, status := some Status.processing, details := none }

def stableStore : Store :=
  { keysBlob := Fetch.ok (IndexBlob.json ["a", "b", "c"]),
    records := [("campaign_a", Fetch.ok (RecordBlob.json jsonA)),
                ("campaign_b", Fetch.ok (RecordBlob.json jsonB)),
                ("campaign_c", Fetch.ok (RecordBlob.json jsonC))],
    readContract := Fetch.ok true, available := Fetch.ok true,
    signerContract := Fetch.ok true }

/-- form data for the C6 witness -/
def formData : NewCampaignData := { name := "Camp1", servers := 2, bandwidth := 10, impressions := 1000, duration := 5 }

/-- campaign list for the C9 witness -/
def statsList : List CampaignData := [procCampaign, decodeCampaign "b" doneJson]

/-- single-completed-record list for the C7 witness -/
def chartList : List CampaignData := [decodeCampaign "a" doneJson]

/-- single-processing-record list for the C7 witness -/
def chartProcList : List CampaignData := [procCampaign]

/-- a completed chart record -/
def chCamp (i : String) (ts v : ℚ) : CampaignData :=
  { id := i, name := "", encryptedData := "", timestamp := ts, owner := "o",
    carbonFootprint := v, status := Status.completed, details := none }

/-- six completed records, newest first, with the largest footprint on the
sixth (not displayed) record -/
def bigList : List CampaignData :=
  [chCamp "a" 600 10, chCamp "b" 500 10, chCamp "c" 400 10,
   chCamp "d" 300 10, chCamp "e" 200 10, chCamp "f" 100 40]

/-- six records for the C8 witness -/
def pag6 : List CampaignData :=
  [chCamp "a" 6 1, chCamp "b" 5 1, chCamp "c" 4 1,
   chCamp "d" 3 1, chCamp "e" 2 1, chCamp "f" 1 1]

/-- three records for the C8 counterexample -/
def pag3 : List CampaignData := [chCamp "x" 3 1, chCamp "y" 2 1, chCamp "z" 1 1]

theorem carbonValue_scenario : ((jsRound (carbonFormula ⟨2, 10, 1000, 5⟩) : ℤ) : ℚ) = 3 := by
  have h : jsRound (carbonFormula ⟨2, 10, 1000, 5⟩) = 3 := by
    norm_num [jsRound, carbonFormula, Int.floor_eq_iff]
  rw [h]; norm_num

/-- C2: for every stored record that parses and carries a metrics object,
a successful compute transition writes back the record with status
completed and carbonFootprint equal to the rounded fixed linear model
round(servers*0.5 + bandwidth*0.02 + impressions*0.001 + duration*0.1),
deterministically; the witness below instantiates the metrics
(2, 10, 1000, 5) and observes the stored value 3. -/
theorem calculateCarbon_formula
    (s : Store) (id : String) (j : CampaignJson) (d : Details)
    (hs : s.signerContract = Fetch.ok true)
    (hr : s.getData ("campaign_" ++ id) = Fetch.ok (RecordBlob.json j))
    (_hst : j.status = some Status.processing)
    (hd : j.details = some d) :
    calculateCarbon s id =
      (Except.ok ({ j with
          carbonFootprint := some ((jsRound (carbonFormula d) : ℤ) : ℚ)
          status := some Status.completed }),
       [Write.record ("campaign_" ++ id)
          (RecordBlob.json ({ j with
              carbonFootprint := some ((jsRound (carbonFormula d) : ℤ) : ℚ)
              status := some Status.completed }))]) := by
  simp only [calculateCarbon, hs, hr, hd]

/-- C2 witness: on a concrete healthy store holding a processing record
with metrics (2, 10, 1000, 5), the compute transition stores
carbonFootprint 3 and status completed. -/
theorem calculateCarbon_formula_witness :
    procStore.signerContract = Fetch.ok true ∧
    procStore.getData ("campaign_" ++ "a") = Fetch.ok (RecordBlob.json procJson) ∧
    procJson.status = some Status.processing ∧
    procJson.details = some ⟨2, 10, 1000, 5⟩ ∧
    calculateCarbon procStore "a" =
      (Except.ok ({ procJson with carbonFootprint := some 3, status := some Status.completed }),
       [Write.record "campaign_a"
          (RecordBlob.json ({ procJson with carbonFootprint := some 3, status := some Status.completed }))]) :=
  ⟨rfl, rfl, rfl, rfl, by
    rw [calculateCarbon_formula procStore "a" procJson ⟨2, 10, 1000, 5⟩ rfl rfl rfl rfl,
        carbonValue_scenario]
    rfl⟩

/-- C1 counterexample: on a concrete store whose record under id "a" is
already completed, calculateCarbon succeeds and issues a write that
re-runs the computation — it is NOT rejected with AlreadyCompleted (and
it takes no caller, so no Unauthorized rejection exists either),
contradicting the claim. -/
theorem calculateCarbon_completed_rerun_counterexample :
    doneJson.status = some Status.completed ∧
    calculateCarbon doneStore "a" =
      (Except.ok ({ doneJson with carbonFootprint := some 3, status := some Status.completed }),
       [Write.record "campaign_a"
          (RecordBlob.json ({ doneJson with carbonFootprint := some 3, status := some Status.completed }))]) :=
  ⟨rfl, by
    have h0 : doneStore.signerContract = Fetch.ok true := rfl
    have h1 : doneStore.getData ("campaign_" ++ "a") = Fetch.ok (RecordBlob.json doneJson) := rfl
    have h2 : doneJson.details = some ⟨2, 10, 1000, 5⟩ := rfl
    simp only [calculateCarbon, h0, h1, h2, carbonValue_scenario]
    rfl⟩

/-- C1 (amended): calculateCarbon is rejected with NotFound when no
record blob exists for the id; it performs no owner check and no status
check itself — whenever the blob parses and has a metrics object the
transition succeeds regardless of owner or completed status; the
case-insensitive owner comparison and the processing-status requirement
exist only as the render condition of the Calculate button in the UI. -/
theorem calculateCarbon_gating
    (s : Store) (id : String) (account : String) (c : CampaignData)
    (j : CampaignJson) (d : Details) :
    (s.signerContract = Fetch.ok true →
      s.getData ("campaign_" ++ id) = Fetch.ok RecordBlob.empty →
      calculateCarbon s id = (Except.error CalcError.notFound, [])) ∧
    (s.signerContract = Fetch.ok true →
      s.getData ("campaign_" ++ id) = Fetch.ok (RecordBlob.json j) →
      j.details = some d →
      (calculateCarbon s id).1 =
        Except.ok ({ j with
            carbonFootprint := some ((jsRound (carbonFormula d) : ℤ) : ℚ)
            status := some Status.completed })) ∧
    (calcButtonVisible account c = true ↔
      account.toLower = c.owner.toLower ∧ c.status = Status.processing) := by
  refine ⟨fun hs hr => ?_, fun hs hr hd => ?_, ?_⟩
  · simp only [calculateCarbon, hs, hr]
  · simp only [calculateCarbon, hs, hr, hd]
  · simp [calcButtonVisible, isOwner, Bool.and_eq_true, beq_iff_eq]

/-- C1 witness: on a concrete store with no blobs the transition is
rejected with NotFound, and the Calculate button condition holds for the
owner of a processing record. -/
theorem calculateCarbon_gating_witness :
    bareStore.signerContract = Fetch.ok true ∧
    bareStore.getData ("campaign_" ++ "z") = Fetch.ok RecordBlob.empty ∧
    calculateCarbon bareStore "z" = (Except.error CalcError.notFound, []) ∧
    (calcButtonVisible "0xOwner" procCampaign = true ↔
      "0xOwner".toLower = procCampaign.owner.toLower ∧ procCampaign.status = Status.processing) :=
  ⟨rfl, rfl,
   (calculateCarbon_gating bareStore "z" "0xOwner" procCampaign procJson ⟨2, 10, 1000, 5⟩).1 rfl rfl,
   (calculateCarbon_gating bareStore "z" "0xOwner" procCampaign procJson ⟨2, 10, 1000, 5⟩).2.2⟩

/-- C10: whenever calculateCarbon fails — missing signer, thrown read,
empty blob, parse failure, or missing metrics object — it issues no
write: the write trace is empty and applying it leaves the store (both
the record blobs and the key index) unchanged. -/
theorem calculateCarbon_no_write_on_error
    (s : Store) (campaignId : String) (e : CalcError)
    (h : (calculateCarbon s campaignId).1 = Except.error e) :
    (calculateCarbon s campaignId).2 = [] ∧
    applyWrites s ((calculateCarbon s campaignId).2) = s := by
  unfold calculateCarbon at h ⊢
  split at h <;> (try split at h) <;> (try split at h) <;> simp_all [applyWrites]

/-- C10 witness: on a concrete store with no blobs the transition fails
with NotFound, its write trace is empty, and the store is unchanged. -/
theorem calculateCarbon_no_write_on_error_witness :
    (calculateCarbon bareStore "z").1 = Except.error CalcError.notFound ∧
    (calculateCarbon bareStore "z").2 = [] ∧
    applyWrites bareStore ((calculateCarbon bareStore "z").2) = bareStore :=
  ⟨rfl, calculateCarbon_no_write_on_error bareStore "z" CalcError.notFound rfl⟩

theorem insertByTs_perm (c : CampaignData) (l : List CampaignData) :
    List.Perm (insertByTs c l) (c :: l) := by
  induction l with
  | nil => exact List.Perm.refl _
  | cons x xs ih =>
    rw [insertByTs]
    by_cases hc : c.timestamp < x.timestamp
    · rw [if_pos hc]
      exact (ih.cons x).trans (List.Perm.swap c x xs)
    · rw [if_neg hc]

theorem insertByTs_sorted (c : CampaignData) (l : List CampaignData)
    (h : l.Pairwise (fun a b => b.timestamp ≤ a.timestamp)) :
    (insertByTs c l).Pairwise (fun a b => b.timestamp ≤ a.timestamp) := by
  induction l with
  | nil => simp [insertByTs]
  | cons x xs ih =>
    rw [insertByTs]
    rw [List.pairwise_cons] at h
    by_cases hc : c.timestamp < x.timestamp
    · rw [if_pos hc]
      rw [List.pairwise_cons]
      refine ⟨fun y hy => ?_, ih h.2⟩
      rcases List.mem_cons.mp ((insertByTs_perm c xs).mem_iff.mp hy) with hyc | hyx
      · subst hyc
        exact le_of_lt hc
      · exact h.1 y hyx
    · rw [if_neg hc]
      rw [List.pairwise_cons]
      refine ⟨fun y hy => ?_, List.pairwise_cons.mpr h⟩
      rcases List.mem_cons.mp hy with hyc | hyx
      · subst hyc
        exact not_lt.mp hc
      · exact le_trans (h.1 y hyx) (not_lt.mp hc)

theorem sortCampaigns_sorted (l : List CampaignData) :
    (sortCampaigns l).Pairwise (fun a b => b.timestamp ≤ a.timestamp) := by
  induction l with
  | nil => simp [sortCampaigns]
  | cons x xs ih => exact insertByTs_sorted x _ ih

theorem filter_insertByTs (c : CampaignData) (l : List CampaignData) (t : ℚ) :
    (insertByTs c l).filter (fun x => x.timestamp = t) =
      if c.timestamp = t then c :: l.filter (fun x => x.timestamp = t)
      else l.filter (fun x => x.timestamp = t) := by
  induction l with
  | nil => simp [insertByTs, List.filter_cons]
  | cons x xs ih =>
    rw [insertByTs]
    by_cases hc : c.timestamp < x.timestamp
    · rw [if_pos hc]
      by_cases hx : x.timestamp = t
      · have hct : c.timestamp ≠ t := by
          intro hh
          rw [hh, hx] at hc
          exact lt_irrefl t hc
        simp [List.filter_cons, hx, hct, ih]
      · simp [List.filter_cons, hx, ih]
    · rw [if_neg hc]
      by_cases hct : c.timestamp = t
      · simp [List.filter_cons, hct]
      · simp [List.filter_cons, hct]

theorem sortCampaigns_filter (l : List CampaignData) (t : ℚ) :
    (sortCampaigns l).filter (fun c => c.timestamp = t) =
      l.filter (fun c => c.timestamp = t) := by
  induction l with
  | nil => rfl
  | cons x xs ih =>
    rw [sortCampaigns, filter_insertByTs, List.filter_cons, ih]
    by_cases hx : x.timestamp = t <;> simp [hx]

/-- C3: for every store for which the load reaches the record loop,
loadCampaigns returns exactly the records whose ids appear in the index
and whose record blob is non-empty and parses (in sorted order); an
absent or unparsable index blob is treated as an empty index, a bad
record blob only skips that id, and the load never throws. -/
theorem loadCampaigns_exact
    (s : Store) (kb : IndexBlob)
    (hc : s.readContract = Fetch.ok true)
    (ha : s.available = Fetch.ok true)
    (hk : s.keysBlob = Fetch.ok kb) :
    loadCampaigns s = (Except.ok (some (sortCampaigns (assembledList s kb))), []) ∧
    (∀ key c, readRecord s key = some c ↔
      ∃ j, s.getData ("campaign_" ++ key) = Fetch.ok (RecordBlob.json j) ∧
        c = decodeCampaign key j) ∧
    indexKeys IndexBlob.empty = [] ∧ indexKeys IndexBlob.malformed = [] := by
  refine ⟨?_, ?_, rfl, rfl⟩
  · simp only [loadCampaigns, loadCampaignsBody, hc, ha, hk]
  · intro key c
    cases hg : s.getData ("campaign_" ++ key) with
    | fail => simp [readRecord, hg]
    | ok rb => cases rb <;> simp [readRecord, hg, eq_comm]

/-- C3 witness: a concrete store with index ["a", "b", "c"] in which
"a" parses, "b" is malformed and "c" is absent loads exactly the record
of "a" without an error. -/
theorem loadCampaigns_exact_witness :
    mixedStore.readContract = Fetch.ok true ∧
    mixedStore.available = Fetch.ok true ∧
    mixedStore.keysBlob = Fetch.ok (IndexBlob.json ["a", "b", "c"]) ∧
    loadCampaigns mixedStore = (Except.ok (some [decodeCampaign "a" procJson]), []) :=
  ⟨rfl, rfl, rfl, by
    rw [(loadCampaigns_exact mixedStore (IndexBlob.json ["a", "b", "c"]) rfl rfl rfl).1]
    rfl⟩

/-- C4 counterexample: on a concrete store whose index read is a
transport failure, the body of loadCampaigns throws but the function
still completes normally with no error for the caller — contradicting
the claim that a total transport failure propagates as
LedgerUnavailable. -/
theorem loadCampaigns_transport_swallowed_counterexample :
    loadCampaignsBody downStore = Fetch.fail ∧
    loadCampaigns downStore = (Except.ok none, []) :=
  ⟨rfl, rfl⟩

/-- C4 (amended): loadCampaigns performs no writes to the store, and NO
failure ever propagates to its caller — the outer catch swallows even a
total transport failure (logging it and leaving the campaign list
unset); per-record and per-key failures are likewise swallowed. -/
theorem loadCampaigns_read_only_never_raises (s : Store) :
    (loadCampaigns s).2 = [] ∧ ∃ r, (loadCampaigns s).1 = Except.ok r := by
  unfold loadCampaigns
  cases h : loadCampaignsBody s <;> simp [h]

/-- C5: every list returned by loadCampaigns is sorted by timestamp
(createdAt) in descending order, and for records with equal timestamps
the original index order is preserved (the filter of the output at any
fixed timestamp equals the filter of the pre-sort assembled list). -/
theorem loadCampaigns_sorted_stable
    (s : Store) (kb : IndexBlob) (l : List CampaignData)
    (hc : s.readContract = Fetch.ok true)
    (ha : s.available = Fetch.ok true)
    (hk : s.keysBlob = Fetch.ok kb)
    (hl : (loadCampaigns s).1 = Except.ok (some l)) :
    l.Pairwise (fun a b => b.timestamp ≤ a.timestamp) ∧
    ∀ t : ℚ, l.filter (fun c => c.timestamp = t) =
      (assembledList s kb).filter (fun c => c.timestamp = t) := by
  have h0 : (loadCampaigns s).1 = Except.ok (some (sortCampaigns (assembledList s kb))) := by
    simp only [loadCampaigns, loadCampaignsBody, hc, ha, hk]
  rw [h0] at hl
  injection hl with h1
  injection h1 with h2
  subst h2
  exact ⟨sortCampaigns_sorted _, fun t => sortCampaigns_filter _ t⟩

/-- C5 witness: a concrete store whose records have timestamps 100, 200,
100 loads in the order 200, 100, 100 with the two equal-timestamp
records in their original index order. -/
theorem loadCampaigns_sorted_stable_witness :
    (loadCampaigns stableStore).1 =
      Except.ok (some [decodeCampaign "b" jsonB, decodeCampaign "a" jsonA, decodeCampaign "c" jsonC]) ∧
    List.Pairwise (fun a b => b.timestamp ≤ a.timestamp)
      [decodeCampaign "b" jsonB, decodeCampaign "a" jsonA, decodeCampaign "c" jsonC] ∧
    List.filter (fun c => c.timestamp = (100 : ℚ))
        [decodeCampaign "b" jsonB, decodeCampaign "a" jsonA, decodeCampaign "c" jsonC] =
      (assembledList stableStore (IndexBlob.json ["a", "b", "c"])).filter
        (fun c => c.timestamp = (100 : ℚ)) := by
  have h1 : (loadCampaigns stableStore).1 =
      Except.ok (some [decodeCampaign "b" jsonB, decodeCampaign "a" jsonA, decodeCampaign "c" jsonC]) := rfl
  exact ⟨h1,
    (loadCampaigns_sorted_stable stableStore (IndexBlob.json ["a", "b", "c"]) _ rfl rfl rfl h1).1,
    (loadCampaigns_sorted_stable stableStore (IndexBlob.json ["a", "b", "c"]) _ rfl rfl rfl h1).2 100⟩

/-- C6: for every non-empty name and metrics, submitCampaign builds the
id from the millisecond timestamp concatenated with the random suffix,
constructs the record with status processing, carbonFootprint 0,
createdAt now (in seconds) and owner equal to the caller account, and
issues exactly two writes in order: first the record blob under the
record key, then the read-modify-append-write of the key index. -/
theorem submitCampaign_spec
    (s : Store) (nowMs : ℕ) (randSuffix account payload : String)
    (d : NewCampaignData) (kb : IndexBlob)
    (_hname : d.name ≠ "")
    (hs : s.signerContract = Fetch.ok true)
    (hk : s.keysBlob = Fetch.ok kb) :
    submitCampaign s nowMs randSuffix account payload d =
      (Except.ok (toString nowMs ++ "-" ++ randSuffix,
        { name := d.name
          data := "FHE-" ++ payload
          timestamp := ((nowMs / 1000 : ℕ) : ℚ)
          owner := account
          carbonFootprint := some 0
          status := some Status.processing
          details := some ⟨d.servers, d.bandwidth, d.impressions, d.duration⟩ }),
       [Write.record ("campaign_" ++ (toString nowMs ++ "-" ++ randSuffix))
          (RecordBlob.json
            { name := d.name
              data := "FHE-" ++ payload
              timestamp := ((nowMs / 1000 : ℕ) : ℚ)
              owner := account
              carbonFootprint := some 0
              status := some Status.processing
              details := some ⟨d.servers, d.bandwidth, d.impressions, d.duration⟩ }),
        Write.keyIndex (indexKeys kb ++ [toString nowMs ++ "-" ++ randSuffix])]) := by
  simp only [submitCampaign, hs, hk]

/-- C6 witness: a concrete submission against an empty index produces
the expected id, record fields and two-write trace. -/
theorem submitCampaign_spec_witness :
    formData.name ≠ "" ∧
    bareStore.signerContract = Fetch.ok true ∧
    bareStore.keysBlob = Fetch.ok IndexBlob.empty ∧
    submitCampaign bareStore 1700000000123 "abc1234" "0xOwner" "p" formData =
      (Except.ok ("1700000000123-abc1234",
        { name := "Camp1", data := "FHE-p", timestamp := ((1700000000123 / 1000 : ℕ) : ℚ),
          owner := "0xOwner", carbonFootprint := some 0, status := some Status.processing,
          details := some ⟨2, 10, 1000, 5⟩ }),
       [Write.record "campaign_1700000000123-abc1234"
          (RecordBlob.json
            { name := "Camp1", data := "FHE-p", timestamp := ((1700000000123 / 1000 : ℕ) : ℚ),
              owner := "0xOwner", carbonFootprint := some 0, status := some Status.processing,
              details := some ⟨2, 10, 1000, 5⟩ }),
        Write.keyIndex ["1700000000123-abc1234"]]) := by
  refine ⟨by decide, rfl, rfl, ?_⟩
  rw [submitCampaign_spec bareStore 1700000000123 "abc1234" "0xOwner" "p" formData
      IndexBlob.empty (by decide) rfl rfl]
  rfl

theorem totalCarbon_foldl_aux (l : List CampaignData) (q : ℚ) :
    l.foldl (fun sum c => sum + c.carbonFootprint) q =
      q + (l.map (fun c => c.carbonFootprint)).sum := by
  induction l generalizing q with
  | nil => simp
  | cons x xs ih => simp [List.foldl_cons, ih, add_assoc]

/-- C9: the derived statistics satisfy completed and processing counts
as status counts, totalCarbon as the sum of footprints, and avgCarbon
equal to totalCarbon divided by the length for a non-empty list and 0
for the empty list — no division by zero. -/
theorem statistics_spec (campaigns : List CampaignData) :
    completedCount campaigns = campaigns.countP (fun c => c.status = Status.completed) ∧
    processingCount campaigns = campaigns.countP (fun c => c.status = Status.processing) ∧
    totalCarbon campaigns = (campaigns.map (fun c => c.carbonFootprint)).sum ∧
    avgCarbon [] = 0 ∧
    (campaigns ≠ [] →
      avgCarbon campaigns = totalCarbon campaigns / (campaigns.length : ℚ)) := by
  refine ⟨?_, ?_, ?_, rfl, ?_⟩
  · rw [completedCount]
    exact (List.countP_eq_length_filter _ _).symm
  · rw [processingCount]
    exact (List.countP_eq_length_filter _ _).symm
  · rw [totalCarbon, totalCarbon_foldl_aux]
    simp
  · intro h
    rw [avgCarbon, if_pos (List.length_pos.mpr h)]

/-- C9 witness: instantiation of the statistics properties on a concrete
two-record list, together with the zero-record average being 0. -/
theorem statistics_spec_witness :
    completedCount statsList = statsList.countP (fun c => c.status = Status.completed) ∧
    processingCount statsList = statsList.countP (fun c => c.status = Status.processing) ∧
    totalCarbon statsList = (statsList.map (fun c => c.carbonFootprint)).sum ∧
    avgCarbon [] = 0 ∧
    statsList ≠ [] ∧
    avgCarbon statsList = totalCarbon statsList / (statsList.length : ℚ) :=
  ⟨(statistics_spec statsList).1, (statistics_spec statsList).2.1,
   (statistics_spec statsList).2.2.1, (statistics_spec statsList).2.2.2.1,
   List.cons_ne_nil _ _,
   (statistics_spec statsList).2.2.2.2 (List.cons_ne_nil _ _)⟩

/-- C7 (amended): the chart restricts to completed records, shows at
most the first 5 of them in the given (globally sorted) order and
normalizes each bar width against the maximum carbonFootprint among ALL
completed records (not only the displayed ones); the empty list and the
no-completed-records list yield the explicit empty states, so the
division is never reached in those cases. -/
theorem renderCarbonChart_spec
    (campaigns : List CampaignData) (c : CampaignData) (cs : List CampaignData)
    (hcomp : campaigns.filter (fun x => x.status = Status.completed) = c :: cs) :
    renderCarbonChart campaigns =
      ChartView.chart (((c :: cs).take 5).map (fun x =>
        { id := x.id, label := x.name.take 10,
          widthPct := x.carbonFootprint /
            ((cs.map (fun y => y.carbonFootprint)).foldl max c.carbonFootprint) * 100,
          value := x.carbonFootprint })) ∧
    renderCarbonChart [] = ChartView.noData ∧
    (∀ l : List CampaignData, l ≠ [] →
      l.filter (fun x => x.status = Status.completed) = [] →
      renderCarbonChart l = ChartView.noCompleted) := by
  refine ⟨?_, rfl, ?_⟩
  · have hne : campaigns.isEmpty = false := by
      cases campaigns with
      | nil => simp at hcomp
      | cons y ys => rfl
    rw [renderCarbonChart, hne]
    rw [hcomp]
    rfl
  · intro l hl hfl
    have hne : l.isEmpty = false := by
      cases l with
      | nil => exact absurd rfl hl
      | cons y ys => rfl
    rw [renderCarbonChart, hne, hfl]
    rfl

/-- C7 witness: instantiation on a one-completed-record list, on the
empty list, and on a processing-only list. -/
theorem renderCarbonChart_spec_witness :
    chartList.filter (fun x => x.status = Status.completed) =
      decodeCampaign "a" doneJson :: [] ∧
    renderCarbonChart chartList =
      ChartView.chart (((decodeCampaign "a" doneJson :: []).take 5).map (fun x =>
        { id := x.id, label := x.name.take 10,
          widthPct := x.carbonFootprint /
            ((([] : List CampaignData).map (fun y => y.carbonFootprint)).foldl max
              (decodeCampaign "a" doneJson).carbonFootprint) * 100,
          value := x.carbonFootprint })) ∧
    renderCarbonChart [] = ChartView.noData ∧
    renderCarbonChart chartProcList = ChartView.noCompleted :=
  ⟨rfl, (renderCarbonChart_spec chartList (decodeCampaign "a" doneJson) [] rfl).1,
   (renderCarbonChart_spec chartList (decodeCampaign "a" doneJson) [] rfl).2.1,
   (renderCarbonChart_spec chartList (decodeCampaign "a" doneJson) [] rfl).2.2
     chartProcList (List.cons_ne_nil _ _) rfl⟩

/-- C7 counterexample: with six completed records whose largest
footprint (40) sits on the sixth, non-displayed record, the rendered
bars are normalized to width 25 against the global maximum, whereas
normalizing against the maximum among the 5 displayed records (10)
would give width 100 — the two derivations disagree, contradicting the
claim that normalization is against the displayed set. -/
theorem renderCarbonChart_normalization_counterexample :
    renderCarbonChart bigList =
      ChartView.chart
        [⟨"a", "", 25, 10⟩, ⟨"b", "", 25, 10⟩, ⟨"c", "", 25, 10⟩,
         ⟨"d", "", 25, 10⟩, ⟨"e", "", 25, 10⟩] ∧
    renderCarbonChartSpecNorm bigList =
      ChartView.chart
        [⟨"a", "", 100, 10⟩, ⟨"b", "", 100, 10⟩, ⟨"c", "", 100, 10⟩,
         ⟨"d", "", 100, 10⟩, ⟨"e", "", 100, 10⟩] ∧
    renderCarbonChart bigList ≠ renderCarbonChartSpecNorm bigList := by
  have h25 : (10 : ℚ) / 40 * 100 = 25 := by norm_num
  have h100 : (10 : ℚ) / 10 * 100 = 100 := by norm_num
  have hmax : max (10 : ℚ) 40 = 40 := by norm_num [max_def]
  have hmax10 : max (10 : ℚ) 10 = 10 := by norm_num [max_def]
  have h1 : renderCarbonChart bigList =
      ChartView.chart
        [⟨"a", "", 25, 10⟩, ⟨"b", "", 25, 10⟩, ⟨"c", "", 25, 10⟩,
         ⟨"d", "", 25, 10⟩, ⟨"e", "", 25, 10⟩] := by
    rw [renderCarbonChart]
    norm_num [bigList, chCamp, List.filter, List.foldl, hmax, hmax10, h25]
    all_goals decide
  have h2 : renderCarbonChartSpecNorm bigList =
      ChartView.chart
        [⟨"a", "", 100, 10⟩, ⟨"b", "", 100, 10⟩, ⟨"c", "", 100, 10⟩,
         ⟨"d", "", 100, 10⟩, ⟨"e", "", 100, 10⟩] := by
    rw [renderCarbonChartSpecNorm]
    norm_num [bigList, chCamp, List.filter, List.foldl, hmax10, h100]
    all_goals decide
  refine ⟨h1, h2, ?_⟩
  rw [h1, h2]
  decide

theorem take_min_length {α : Type} (l : List α) (n : ℕ) :
    l.take (min n l.length) = l.take n := by
  rcases le_total n l.length with h | h
  · rw [min_eq_left h]
  · rw [min_eq_right h, List.take_length, List.take_of_length_le h]

theorem jsSlice_nonneg {α : Type} (l : List α) (a b : ℕ) (hab : a ≤ b) :
    jsSlice l (a : ℤ) (b : ℤ) = (l.drop a).take (b - a) := by
  unfold jsSlice jsSliceBound
  rw [if_neg (by omega : ¬ ((b : ℤ) < 0)), if_neg (by omega : ¬ ((a : ℤ) < 0))]
  simp only [Int.toNat_ofNat]
  rw [take_min_length]
  have h2 : (l.take b).drop (min a l.length) = (l.take b).drop a := by
    rcases le_total a l.length with h | h
    · rw [min_eq_left h]
    · rw [min_eq_right h]
      have hx : (l.take b).length ≤ l.length := by
        rw [List.length_take]
        omega
      rw [List.drop_eq_nil_of_le hx, List.drop_eq_nil_of_le (le_trans hx h)]
  rw [h2]
  have h3 : a + (b - a) = b := by omega
  rw [List.take_drop a (b - a) l, h3]

/-- C8 (amended): pagination uses the fixed page size 5 with 1-based
pages and totalPages equal to the rational ceiling of count/pageSize;
an in-range page p shows the p-th chunk of 5; but an out-of-range page
is NOT clamped — paginate stores the page exactly as requested, and a
page beyond totalPages yields an empty slice (without error). -/
theorem pagination_spec (filtered : List CampaignData) (p : ℕ) (hp : 1 ≤ p) :
    (totalPages filtered : ℤ) = ⌈(filtered.length : ℚ) / (itemsPerPage : ℚ)⌉ ∧
    currentItems filtered (p : ℤ) =
      (filtered.drop ((p - 1) * itemsPerPage)).take itemsPerPage ∧
    (totalPages filtered < p → currentItems filtered (p : ℤ) = []) ∧
    paginate (p : ℤ) = (p : ℤ) := by
  have hlen5 : filtered.length ≤ 5 * totalPages filtered ∧
      5 * totalPages filtered ≤ filtered.length + 4 := by
    unfold totalPages itemsPerPage
    omega
  have hcur : currentItems filtered (p : ℤ) =
      (filtered.drop ((p - 1) * 5)).take 5 := by
    unfold currentItems itemsPerPage
    have e1 : (p : ℤ) * ((5 : ℕ) : ℤ) - ((5 : ℕ) : ℤ) = (((p - 1) * 5 : ℕ) : ℤ) := by
      push_cast
      omega
    have e2 : (p : ℤ) * ((5 : ℕ) : ℤ) = ((p * 5 : ℕ) : ℤ) := by
      push_cast
      ring
    rw [e1]
    rw [e2]
    rw [jsSlice_nonneg _ _ _ (by omega)]
    congr 1
    omega
  refine ⟨?_, by rw [hcur]; rfl, fun hgt => ?_, rfl⟩
  · have h5 : ((itemsPerPage : ℕ) : ℚ) = 5 := by norm_num [itemsPerPage]
    rw [h5, eq_comm, Int.ceil_eq_iff]
    constructor
    · rw [lt_div_iff₀ (by norm_num : (0 : ℚ) < 5)]
      have hi : ((totalPages filtered : ℤ) - 1) * 5 < (filtered.length : ℤ) := by omega
      exact_mod_cast hi
    · rw [div_le_iff₀ (by norm_num : (0 : ℚ) < 5)]
      have hi : (filtered.length : ℤ) ≤ (totalPages filtered : ℤ) * 5 := by omega
      exact_mod_cast hi
  · rw [hcur]
    have hd : filtered.length ≤ (p - 1) * 5 := by omega
    rw [List.drop_eq_nil_of_le hd]
    rfl

/-- C8 witness: instantiation on a concrete six-record list at pages 2
and 3 (the latter out of range, yielding the empty slice). -/
theorem pagination_spec_witness :
    (1 ≤ 2 ∧ 1 ≤ 3) ∧
    (totalPages pag6 : ℤ) = ⌈(pag6.length : ℚ) / (itemsPerPage : ℚ)⌉ ∧
    currentItems pag6 ((2 : ℕ) : ℤ) = (pag6.drop ((2 - 1) * itemsPerPage)).take itemsPerPage ∧
    (pag6.drop ((2 - 1) * itemsPerPage)).take itemsPerPage = [chCamp "f" 1 1] ∧
    (totalPages pag6 < 3 ∧ currentItems pag6 ((3 : ℕ) : ℤ) = []) ∧
    paginate ((2 : ℕ) : ℤ) = ((2 : ℕ) : ℤ) :=
  ⟨⟨by decide, by decide⟩,
   (pagination_spec pag6 2 (by decide)).1,
   (pagination_spec pag6 2 (by decide)).2.1,
   rfl,
   ⟨by decide, (pagination_spec pag6 3 (by decide)).2.2.1 (by decide)⟩,
   (pagination_spec pag6 2 (by decide)).2.2.2⟩

/-- C8 counterexample: on a three-record list (one page), requesting
page 2 yields the empty list instead of the clamped page 1 contents —
out-of-range page requests are not clamped into range, contradicting
the claim. -/
theorem pagination_no_clamp_counterexample :
    totalPages pag3 = 1 ∧
    currentItems pag3 2 = [] ∧
    currentItems pag3 1 = pag3 ∧
    currentItems pag3 2 ≠ currentItems pag3 1 := by
  refine ⟨rfl, rfl, rfl, ?_⟩
  decide

end AdCarbon
